import Mathlib

/-!
Verification of the MediMind backend (`server.js`) against its specification.

The embedding works over `List Char` (JavaScript strings viewed as sequences of
Unicode code points; the emoji markers and labels involved never make the
UTF-16 / code-point distinction observable, since surrogate halves are neither
whitespace nor letters nor pattern characters).

`parseAgentResponse` in the source is a table of six regular expressions, each
of the shape

    EMOJI \s* LABEL :? \s* ([\s\S]*?) (?= B1 | B2 | ... | $ ) , flag i

matched with `String.prototype.match` (first match in document order).  Because
the lazy group together with the `$` alternative always succeeds, the match
position is the first index at which `EMOJI \s* LABEL :? \s*` matches (the
label starts with an ASCII letter and therefore never overlaps the greedy
`\s*`, so this part of the pattern is deterministic), and the captured group
runs from just after that deterministic head to the first position at or after
it where one of the lookahead alternatives starts, or to the end of the string.
The handler keeps `match[1].trim()` when the capture is a non-empty string and
the default `""` otherwise; since the capture never begins with whitespace
(the greedy `\s*` consumed it), this is the same as trimming the capture
whenever the head matched somewhere, which is how it is rendered below.
-/

namespace MediMind

/-- The set of characters matched by JavaScript `\s` (and removed by
`String.prototype.trim`): WhiteSpace ∪ LineTerminator of the ECMAScript
specification. -/
def isJsWs (c : Char) : Bool :=
  c == ' ' || c == '\t' || c == '\n' || c == '\x0b' || c == '\x0c' || c == '\r' ||
  c == ' ' || c == ' ' ||
  (0x2000 ≤ c.val && c.val ≤ 0x200A) ||
  c == ' ' || c == ' ' || c == ' ' || c == ' ' ||
  c == '　' || c == '﻿'

/-- Case-insensitive comparison of a subject character `c` against a pattern
character `p`, as performed by a non-Unicode ECMAScript regular expression with
the `i` flag on the ASCII patterns used here (all pattern letters are upper
case; `Char.toUpper` only affects ASCII, matching the ECMAScript rule that a
non-ASCII character never canonicalizes onto an ASCII one in non-Unicode
mode). -/
def ciEq (c p : Char) : Bool :=
  c == p || c.toUpper == p

/-- Does the string start with the given pattern, case-insensitively
(`ciEq` per character)? -/
def startsWithCI : List Char → List Char → Bool
  | [], _ => true
  | _ :: _, [] => false
  | p :: ps, c :: cs => ciEq c p && startsWithCI ps cs

/-- Does the string start with the given pattern, exactly?  (Used for the
emoji literals, on which the `i` flag has no effect.) -/
def startsWithExact : List Char → List Char → Bool
  | [], _ => true
  | _ :: _, [] => false
  | p :: ps, c :: cs => p == c && startsWithExact ps cs

/-- Drop leading JavaScript whitespace: the greedy `\s*`. -/
def dropWs (s : List Char) : List Char := s.dropWhile isJsWs

/-- JavaScript `String.prototype.trim`. -/
def trimJs (s : List Char) : List Char :=
  ((s.dropWhile isJsWs).reverse.dropWhile isJsWs).reverse

/-- A section start marker: an emoji glyph (one or two code points — the
shield carries the U+FE0F variation selector in the source) followed by an
upper-case label. -/
structure Marker where
  emoji : List Char
  label : List Char

/-- Match the deterministic head `EMOJI \s* LABEL :? \s*` of one of the six
section regular expressions at the start of `s`; on success return the suffix
of `s` at which the lazy capture group begins. -/
def matchHead (m : Marker) (s : List Char) : Option (List Char) :=
  if startsWithExact m.emoji s then
    let r1 := dropWs (s.drop m.emoji.length)
    if startsWithCI m.label r1 then
      let r2 := r1.drop m.label.length
      let r3 := match r2 with
        | ':' :: rest => rest
        | _ => r2
      some (dropWs r3)
    else none
  else none

/-- Scan `s` left to right for the first position where the head of the
section regular expression matches (this is the match position chosen by
`String.prototype.match`); return the suffix at which the capture begins. -/
def findContentStart (m : Marker) : List Char → Option (List Char)
  | [] => none
  | c :: cs =>
    match matchHead m (c :: cs) with
    | some r => some r
    | none => findContentStart m cs

/-- Does one of the lookahead alternatives (an emoji glyph or a bare label,
case-insensitively) start here? -/
def isBoundaryAt (bounds : List (List Char)) (t : List Char) : Bool :=
  bounds.any (fun b => startsWithCI b t)

/-- The lazy capture `([\s\S]*?)(?= B1 | ... | $)`: everything up to (but not
including) the first position at which a lookahead alternative starts, or to
the end of the string. -/
def takeBody (bounds : List (List Char)) : List Char → List Char
  | [] => []
  | c :: cs => if isBoundaryAt bounds (c :: cs) then [] else c :: takeBody bounds cs

/-- One entry of the `sections` table: find the first match of the section
regular expression and return the trimmed capture, or `""` when the marker
does not occur. -/
def extractSection (m : Marker) (bounds : List (List Char)) (s : List Char) : List Char :=
  match findContentStart m s with
  | none => []
  | some t => trimJs (takeBody bounds t)

/- The six markers and lookahead alternative lists, transcribed from the
`sections` table in `parseAgentResponse` (server.js lines 86–98).  The shield
emoji in the source is U+1F6E1 followed by the variation selector U+FE0F. -/

def shieldEmoji : List Char := ['🛡', '️']

def symptomMarker : Marker := ⟨['🔍'], "SYMPTOM_ANALYZER".data⟩
def riskMarker : Marker := ⟨['📊'], "RISK_PREDICTOR".data⟩
def fraudMarker : Marker := ⟨shieldEmoji, "FRAUD_DETECTOR".data⟩
def securityMarker : Marker := ⟨['🔐'], "SECURITY_GUARDIAN".data⟩
def coordinatorMarker : Marker := ⟨['🤖'], "COORDINATOR_INSIGHTS".data⟩
def recommendationsMarker : Marker := ⟨['💊'], "RECOMMENDATIONS".data⟩

def symptomBounds : List (List Char) :=
  [['📊'], "RISK_PREDICTOR".data, shieldEmoji, "FRAUD_DETECTOR".data,
   ['🔐'], "SECURITY_GUARDIAN".data, ['🤖'], "COORDINATOR".data,
   ['💊'], "RECOMMENDATIONS".data]

def riskBounds : List (List Char) :=
  [shieldEmoji, "FRAUD_DETECTOR".data,
   ['🔐'], "SECURITY_GUARDIAN".data, ['🤖'], "COORDINATOR".data,
   ['💊'], "RECOMMENDATIONS".data]

def fraudBounds : List (List Char) :=
  [['🔐'], "SECURITY_GUARDIAN".data, ['🤖'], "COORDINATOR".data,
   ['💊'], "RECOMMENDATIONS".data]

def securityBounds : List (List Char) :=
  [['🤖'], "COORDINATOR".data, ['💊'], "RECOMMENDATIONS".data]

def coordinatorBounds : List (List Char) :=
  [['💊'], "RECOMMENDATIONS".data]

/- The `recommendations` pattern has no lookahead: its lazy capture followed
by `$` takes everything to the end of the string, i.e. an empty alternative
list below. -/
def recommendationsBounds : List (List Char) := []

/-- The result object of `parseAgentResponse`: always exactly these six
fields, each initialised to `""`. -/
structure Agents where
  symptom : List Char
  risk : List Char
  fraud : List Char
  security : List Char
  coordinator : List Char
  recommendations : List Char
deriving Repr, DecidableEq

/-- The function `parseAgentResponse` (server.js lines 76–108): each of the
six independent regular-expression extractions applied to the original
reply. -/
def parseAgentResponse (s : List Char) : Agents :=
  { symptom := extractSection symptomMarker symptomBounds s
    risk := extractSection riskMarker riskBounds s
    fraud := extractSection fraudMarker fraudBounds s
    security := extractSection securityMarker securityBounds s
    coordinator := extractSection coordinatorMarker coordinatorBounds s
    recommendations := extractSection recommendationsMarker recommendationsBounds s }

/-!
## Specification-side formulation of the extractor

The specification describes extraction positionally: find the *first
occurrence* of the key's start marker, capture everything up to (but not
including) the *next* boundary occurrence — or to the end of the string — and
trim.  The definitions below follow those words, phrased with explicit first
indices rather than the scanning recursion of the transcription above; the
refinement theorem for C1 proves the two agree on every input.
-/

/-- Index of the first suffix of the string satisfying `p` (a position in
`0 .. length`, the final empty suffix included). -/
def firstIdxAt (p : List Char → Bool) : List Char → Option Nat
  | [] => if p [] then some 0 else none
  | c :: cs => if p (c :: cs) then some 0 else (firstIdxAt p cs).map (· + 1)

/-- The end position of the capture, per the specification: the first position at
which some boundary alternative starts, or the end of the string if none
occurs (the `$` alternative). -/
def specBoundaryIdx (bounds : List (List Char)) (t : List Char) : Nat :=
  (firstIdxAt (fun u => u.isEmpty || isBoundaryAt bounds u) t).getD t.length

/-- Extraction as the specification words it: at the first occurrence of the
start marker, capture from just after the marker head (optional colon and
whitespace skipped) up to — but not including — the first later boundary
position, or to the end of the string, and trim. -/
def specExtractSection (m : Marker) (bounds : List (List Char)) (s : List Char) :
    List Char :=
  match firstIdxAt (fun t => (matchHead m t).isSome) s with
  | none => []
  | some i =>
    match matchHead m (s.drop i) with
    | none => []
    | some t => trimJs (t.take (specBoundaryIdx bounds t))

/-- The whole six-key extraction, specification-side. -/
def specParseAgentResponse (s : List Char) : Agents :=
  { symptom := specExtractSection symptomMarker symptomBounds s
    risk := specExtractSection riskMarker riskBounds s
    fraud := specExtractSection fraudMarker fraudBounds s
    security := specExtractSection securityMarker securityBounds s
    coordinator := specExtractSection coordinatorMarker coordinatorBounds s
    recommendations := specExtractSection recommendationsMarker recommendationsBounds s }

theorem findContentStart_eq_firstIdx (m : Marker) (h0 : matchHead m [] = none) :
    ∀ s : List Char, findContentStart m s =
      (firstIdxAt (fun t => (matchHead m t).isSome) s).bind
        (fun i => matchHead m (s.drop i))
  | [] => by simp [findContentStart, firstIdxAt, h0]
  | c :: cs => by
    cases hm : matchHead m (c :: cs) with
    | some r => simp [findContentStart, firstIdxAt, hm]
    | none =>
      have ih := findContentStart_eq_firstIdx m h0 cs
      cases hx : firstIdxAt (fun t => (matchHead m t).isSome) cs with
      | none => simp [findContentStart, firstIdxAt, hm, hx, ih]
      | some i => simp [findContentStart, firstIdxAt, hm, hx, ih]

theorem takeBody_eq_take (bounds : List (List Char)) :
    ∀ t : List Char, takeBody bounds t = t.take (specBoundaryIdx bounds t)
  | [] => by simp [takeBody, specBoundaryIdx, firstIdxAt]
  | c :: cs => by
    have ih := takeBody_eq_take bounds cs
    by_cases hb : isBoundaryAt bounds (c :: cs) = true
    · simp [takeBody, specBoundaryIdx, firstIdxAt, hb]
    · cases hx : firstIdxAt (fun u => u.isEmpty || isBoundaryAt bounds u) cs with
      | none => simp [takeBody, specBoundaryIdx, firstIdxAt, hb, hx, ih]
      | some i => simp [takeBody, specBoundaryIdx, firstIdxAt, hb, hx, ih]

theorem extractSection_eq_spec (m : Marker) (bounds : List (List Char))
    (h0 : matchHead m [] = none) (s : List Char) :
    extractSection m bounds s = specExtractSection m bounds s := by
  unfold extractSection specExtractSection
  rw [findContentStart_eq_firstIdx m h0 s]
  cases hx : firstIdxAt (fun t => (matchHead m t).isSome) s with
  | none => simp
  | some i =>
    cases hm : matchHead m (s.drop i) with
    | none => simp [hm]
    | some t => simp [hm, takeBody_eq_take]

/-!
## HTTP handler layer

The three handlers are modelled as pure functions.  The external
collaborators — one chat-completion call and one database operation — enter as
oracle arguments (`Except` values / functions), and each handler returns its
HTTP response together with the ordered list of outbound calls it performed.
Request body fields are `Option String` (a missing JSON/multipart field is
`none`); JavaScript truthiness on such a field makes both `undefined` and the
empty string falsy.
-/

/-- JavaScript truthiness of a possibly-absent string-valued request field:
`undefined` and `""` are falsy, every other string is truthy. -/
def truthy : Option String → Bool
  | none => false
  | some s => !(s == "")

/-- JavaScript `v || d` on a possibly-absent string field with a string
default (used for `name || "Guest"`, `userCode || "ANON-0000"`,
`history || "None"`). -/
def orDefault (v : Option String) (d : String) : String :=
  match v with
  | some s => if s == "" then d else s
  | none => d

/-- JavaScript `v || null` on a possibly-absent string field (used for
`history: history || null`). -/
def orNullStr (v : Option String) : Option String :=
  match v with
  | some s => if s == "" then none else some s
  | none => none

/-- JavaScript `v || null` on an extracted section (a string): the empty
string is falsy and becomes `null` (`none`); any other string is kept. -/
def orNull (s : List Char) : Option (List Char) :=
  if s.isEmpty then none else some s

/-- JavaScript `parseInt(s, 10)`: skip leading whitespace, read an optional
sign and then the longest run of decimal digits; `none` models the `NaN`
returned when no digit is found.  (JavaScript computes a floating-point value,
so astronomically long digit strings would lose precision there; the claims at
stake only distinguish an integer result from `NaN`, which this model renders
exactly.) -/
def jsParseInt (s : String) : Option Int :=
  let t := s.data.dropWhile isJsWs
  let signAndRest : Int × List Char :=
    match t with
    | '-' :: r => (-1, r)
    | '+' :: r => (1, r)
    | _ => (1, t)
  let ds := signAndRest.2.takeWhile (fun c => c.isDigit)
  if ds.isEmpty then none
  else some (signAndRest.1 *
    (ds.foldl (fun a c => a * 10 + ((c.toNat - '0'.toNat : Nat) : Int)) 0))

/-- One chat message sent to the model endpoint.  The content is optional
because the chat handler forwards absent body fields as-is (JavaScript
`undefined`). -/
structure Msg where
  role : String
  content : Option String
deriving Repr, DecidableEq

/-- The body of a `POST /api/analyze` request, as destructured by the handler
(server.js line 114). -/
structure AnalyzeBody where
  symptoms : Option String
  age : Option String
  history : Option String
  name : Option String
  userCode : Option String
deriving Repr, DecidableEq

/-- The row passed to the `cases` insert (server.js lines 166–183). -/
structure CaseRow where
  user_id : Option Nat
  symptoms : String
  age : Option Int
  history : Option String
  symptom_analyzer : Option (List Char)
  risk_predictor : Option (List Char)
  fraud_detector : Option (List Char)
  security_guardian : Option (List Char)
  coordinator_insights : Option (List Char)
  recommendations : Option (List Char)
  full_response : String
  prescription_text : Option String
  prescription_flag : String
deriving Repr, DecidableEq

/-- An outbound call performed by a handler, in order. -/
inductive Event where
  | modelCall (messages : List Msg)
  | storeInsert (row : CaseRow)
  | storeSelect
deriving Repr, DecidableEq

/-- The fixed system instruction of the analyze endpoint (server.js lines
120–135). -/
def systemPrompt : String :=
  "\nYou are MediMind, a SINGLE LLM acting as SIX agents:\n\n🔍 SYMPTOM_ANALYZER\n📊 RISK_PREDICTOR\n🛡️ FRAUD_DETECTOR\n🔐 SECURITY_GUARDIAN\n🤖 COORDINATOR_INSIGHTS\n💊 RECOMMENDATIONS\n\nRules:\n- NO doctor / hospital / clinic suggestions\n- NO medication or prescriptions\n- Only explanations, risks, lifestyle & monitoring\n- Output EXACTLY six sections with emojis\n"

/-- The per-request user instruction of the analyze endpoint (server.js lines
137–154); `file` is the original filename of the uploaded file, when one is
present.  The interpolations of `symptoms` and `age` only happen after the
truthiness check, so the `getD ""` defaults are never exercised on the paths
that build this prompt. -/
def userPrompt (b : AnalyzeBody) (file : Option String) : String :=
  "\nPATIENT_NAME: " ++ orDefault b.name "Guest" ++
  "\nMEDIMIND_CODE: " ++ orDefault b.userCode "ANON-0000" ++
  "\n\nSYMPTOMS: " ++ b.symptoms.getD "" ++
  "\nAGE: " ++ b.age.getD "" ++
  "\nMEDICAL_HISTORY: " ++ orDefault b.history "None" ++
  "\nPRESCRIPTION: " ++
    (match file with
     | some nm => "Uploaded (" ++ nm ++ ")"
     | none => "None") ++
  "\n\nRespond EXACTLY in this format:\n\n🔍 SYMPTOM_ANALYZER:\n📊 RISK_PREDICTOR:\n🛡️ FRAUD_DETECTOR:\n🔐 SECURITY_GUARDIAN:\n🤖 COORDINATOR_INSIGHTS:\n💊 RECOMMENDATIONS:\n"

/-- The two-message payload handed to `callOllama` by the analyze handler
(server.js lines 157–160). -/
def analyzeMessages (b : AnalyzeBody) (file : Option String) : List Msg :=
  [⟨"system", some systemPrompt⟩, ⟨"user", some (userPrompt b file)⟩]

/-- The insert row built by the analyze handler (server.js lines 166–183). -/
def buildRow (b : AnalyzeBody) (file : Option String) (fullResponse : String)
    (agents : Agents) : CaseRow :=
  { user_id := none
    symptoms := b.symptoms.getD ""
    age := jsParseInt (b.age.getD "")
    history := orNullStr b.history
    symptom_analyzer := orNull agents.symptom
    risk_predictor := orNull agents.risk
    fraud_detector := orNull agents.fraud
    security_guardian := orNull agents.security
    coordinator_insights := orNull agents.coordinator
    recommendations := orNull agents.recommendations
    full_response := fullResponse
    prescription_text := none
    prescription_flag := if file.isSome then "UPLOADED" else "NONE" }

/-- JavaScript `data?.[0]?.id || null` applied to the rows returned by the
insert: the id of the first returned row, with a falsy id (0) collapsed to
`null`. -/
def idOrNull (data : List Nat) : Option Nat :=
  match data.head? with
  | some i => if i == 0 then none else some i
  | none => none

/-- The response of the analyze endpoint: exactly one of the three JSON
bodies the handler can send (`{error}` with status 400, `{fullResponse,
agents, caseId}` with status 200, `{error}` with status 500). -/
inductive AnalyzeResp where
  | badRequest (error : String)
  | ok (fullResponse : String) (agents : Agents) (caseId : Option Nat)
  | serverError (error : String)
deriving Repr, DecidableEq

/-- The HTTP status carried by each analyze response shape. -/
def AnalyzeResp.status : AnalyzeResp → Nat
  | .badRequest _ => 400
  | .ok _ _ _ => 200
  | .serverError _ => 500

/-- The `POST /api/analyze` handler (server.js lines 112–203).  `model` is the
outcome of the `callOllama` call (`.error` when it throws), `store` the
outcome of the supabase insert for a given row (`.error e` when the client
reports an insert error, `.ok rows` with the returned row ids otherwise).
The second component records the outbound calls in order. -/
def analyzeHandler (b : AnalyzeBody) (file : Option String)
    (model : Except String String)
    (store : CaseRow → Except String (List Nat)) :
    AnalyzeResp × List Event :=
  if !truthy b.symptoms || !truthy b.age then
    (.badRequest "Missing symptoms or age", [])
  else
    match model with
    | .error _ =>
      (.serverError "Ollama inference failed. Make sure Ollama is running.",
       [.modelCall (analyzeMessages b file)])
    | .ok fullResponse =>
      let agents := parseAgentResponse fullResponse.data
      let row := buildRow b file fullResponse agents
      match store row with
      | .error _ =>
        (.serverError "Failed to save case to database",
         [.modelCall (analyzeMessages b file), .storeInsert row])
      | .ok data =>
        (.ok fullResponse agents (idOrNull data),
         [.modelCall (analyzeMessages b file), .storeInsert row])

/-- The fixed system instruction of the chat endpoint (server.js lines
213–216). -/
def chatSystemPrompt : String :=
  "You are MediMind follow-up assistant. Continue discussion based on the given case context. Do NOT give medical prescriptions or tell the user to visit any doctor / hospital. Focus on explanations, risks, lifestyle and monitoring."

/-- The three-message payload handed to `callOllama` by the chat handler
(server.js lines 211–219): the two user turns forward the body fields
unchanged, absent ones included. -/
def chatMessages (caseContext question : Option String) : List Msg :=
  [⟨"system", some chatSystemPrompt⟩, ⟨"user", caseContext⟩, ⟨"user", question⟩]

/-- The response of the chat endpoint: `{reply}` with status 200 or `{error}`
with status 500. -/
inductive ChatResp where
  | ok (reply : String)
  | err (error : String)
deriving Repr, DecidableEq

/-- The HTTP status carried by each chat response shape. -/
def ChatResp.status : ChatResp → Nat
  | .ok _ => 200
  | .err _ => 500

/-- The `POST /api/chat` handler (server.js lines 207–226). -/
def chatHandler (caseContext question : Option String)
    (model : Except String String) : ChatResp × List Event :=
  match model with
  | .ok reply => (.ok reply, [.modelCall (chatMessages caseContext question)])
  | .error _ => (.err "Chat failed", [.modelCall (chatMessages caseContext question)])

/-- The response of the health endpoint: `{status:"ok"}` with status 200 or
`{status:"error", message}` with status 500. -/
inductive HealthResp where
  | ok
  | err (message : String)
deriving Repr, DecidableEq

/-- The HTTP status carried by each health response shape. -/
def HealthResp.status : HealthResp → Nat
  | .ok => 200
  | .err _ => 500

/-- The `GET /api/health` handler (server.js lines 230–239): one select
against the `cases` table; a reported error is thrown and caught, producing
the 500 body. -/
def healthHandler (read : Except String Unit) : HealthResp × List Event :=
  match read with
  | .ok _ => (.ok, [.storeSelect])
  | .error m => (.err m, [.storeSelect])

/-!
## Claim theorems
-/

/-- C1 (amended): for every raw reply and each of the six section keys, the
extractor returns the text captured from just after the first occurrence of
the start marker of that key (with an optional colon and surrounding
whitespace skipped) up to — but not including — the first later position at
which any subsequent section boundary alternative occurs, where a boundary
alternative is the emoji glyph of a later section or its bare label text
matched case-insensitively (not only the full emoji-plus-label marker), or to
the end of the string when no such boundary occurs, trimmed of surrounding
whitespace; the key maps to the empty string when its marker is absent.  This
is stated as: the transcription of the code equals the positional
specification-side formulation on every input. -/
theorem c1_extractor_matches_spec (s : List Char) :
    parseAgentResponse s = specParseAgentResponse s := by
  unfold parseAgentResponse specParseAgentResponse
  rw [extractSection_eq_spec symptomMarker symptomBounds (by decide) s,
      extractSection_eq_spec riskMarker riskBounds (by decide) s,
      extractSection_eq_spec fraudMarker fraudBounds (by decide) s,
      extractSection_eq_spec securityMarker securityBounds (by decide) s,
      extractSection_eq_spec coordinatorMarker coordinatorBounds (by decide) s,
      extractSection_eq_spec recommendationsMarker recommendationsBounds (by decide) s]

/-- A reply containing the symptom start marker, the bare word
RECOMMENDATIONS with no emoji, and none of the other five section emoji
glyphs — hence no later full section marker. -/
def c1Reply : List Char := "🔍 SYMPTOM_ANALYZER: hello RECOMMENDATIONS tail".data

/-- C1 as frozen is false on `c1Reply`: the reply contains the symptom start
marker, and no later section marker (emoji glyph followed by label) occurs in
it — none of the other five emoji glyphs occur at all — so the frozen claim
requires the capture to extend to the end of the string, i.e. the value
hello RECOMMENDATIONS tail; the code instead truncates at the bare word
RECOMMENDATIONS and returns hello. -/
theorem c1_counterexample :
    (parseAgentResponse c1Reply).symptom = "hello".data ∧
    ((parseAgentResponse c1Reply).symptom == "hello RECOMMENDATIONS tail".data) = false ∧
    c1Reply.contains '📊' = false ∧
    c1Reply.contains '🛡' = false ∧
    c1Reply.contains '🔐' = false ∧
    c1Reply.contains '🤖' = false ∧
    c1Reply.contains '💊' = false := by
  decide

/-- C2: extraction is total — the result always has exactly the six fields of
`Agents`, by its type — and every key whose start marker does not occur in the
reply maps to the empty string (never a missing or null value, which the
`List Char` field type cannot even express). -/
theorem c2_absent_marker_maps_to_empty (s : List Char) :
    (findContentStart symptomMarker s = none → (parseAgentResponse s).symptom = []) ∧
    (findContentStart riskMarker s = none → (parseAgentResponse s).risk = []) ∧
    (findContentStart fraudMarker s = none → (parseAgentResponse s).fraud = []) ∧
    (findContentStart securityMarker s = none → (parseAgentResponse s).security = []) ∧
    (findContentStart coordinatorMarker s = none → (parseAgentResponse s).coordinator = []) ∧
    (findContentStart recommendationsMarker s = none →
      (parseAgentResponse s).recommendations = []) := by
  refine ⟨?_, ?_, ?_, ?_, ?_, ?_⟩ <;>
    intro h <;> simp [parseAgentResponse, extractSection, h]

/-- Witness for C2 at a concrete reply containing none of the six start
markers: every key of the result is the empty string. -/
theorem c2_witness :
    (parseAgentResponse "plain text with no markers".data).symptom = [] ∧
    (parseAgentResponse "plain text with no markers".data).risk = [] ∧
    (parseAgentResponse "plain text with no markers".data).fraud = [] ∧
    (parseAgentResponse "plain text with no markers".data).security = [] ∧
    (parseAgentResponse "plain text with no markers".data).coordinator = [] ∧
    (parseAgentResponse "plain text with no markers".data).recommendations = [] :=
  ⟨(c2_absent_marker_maps_to_empty "plain text with no markers".data).1 (by decide),
   (c2_absent_marker_maps_to_empty "plain text with no markers".data).2.1 (by decide),
   (c2_absent_marker_maps_to_empty "plain text with no markers".data).2.2.1 (by decide),
   (c2_absent_marker_maps_to_empty "plain text with no markers".data).2.2.2.1 (by decide),
   (c2_absent_marker_maps_to_empty "plain text with no markers".data).2.2.2.2.1 (by decide),
   (c2_absent_marker_maps_to_empty "plain text with no markers".data).2.2.2.2.2 (by decide)⟩

/-- A security section whose body contains the bare word COORDINATOR, with no
robot emoji anywhere. -/
def c8SecurityReply : List Char := "🔐 SECURITY_GUARDIAN: alpha COORDINATOR beta".data

/-- A symptom section in lower case whose body contains the bare lower-case
word recommendations, with no pill emoji anywhere. -/
def c8LowerReply : List Char := "🔍 symptom_analyzer: x recommendations y".data

/-- A symptom section whose body contains the bar-chart emoji with no label
after it. -/
def c8EmojiReply : List Char := "🔍 SYMPTOM_ANALYZER: aaa 📊 bbb".data

/-- C8: a section capture is terminated by the first later occurrence of a
subsequent section emoji glyph alone or of a subsequent bare label text alone
(case-insensitively), not only by a full emoji-plus-label pair: the bare word
COORDINATOR truncates the security body although no robot emoji occurs; the
bare lower-case word recommendations truncates the symptom body although no
pill emoji occurs; and the bar-chart emoji truncates the symptom body although
no label follows it. -/
theorem c8_bare_label_or_emoji_truncates :
    ((parseAgentResponse c8SecurityReply).security = "alpha".data ∧
      c8SecurityReply.contains '🤖' = false) ∧
    ((parseAgentResponse c8LowerReply).symptom = "x".data ∧
      c8LowerReply.contains '💊' = false) ∧
    (parseAgentResponse c8EmojiReply).symptom = "aaa".data := by
  decide

theorem orNull_eq_ite (s : List Char) :
    orNull s = if s = [] then none else some s := by
  cases s <;> simp [orNull]

/-- C3 (amended): the analyze handler answers with the 400 validation error —
the fixed `{error}` body — and performs no model call and no store call,
exactly when the symptoms field or the age field is JavaScript-falsy, i.e.
missing or bound to the empty string; when both are present and non-empty the
400 validation response is never produced, whatever the model and store
outcomes. -/
theorem c3_validation_iff_falsy (b : AnalyzeBody) (file : Option String)
    (model : Except String String) (store : CaseRow → Except String (List Nat)) :
    (analyzeHandler b file model store =
        (AnalyzeResp.badRequest "Missing symptoms or age", []) ↔
      (truthy b.symptoms = false ∨ truthy b.age = false)) ∧
    (AnalyzeResp.badRequest "Missing symptoms or age").status = 400 ∧
    ((analyzeHandler b file model store).1.status = 400 →
      analyzeHandler b file model store =
        (AnalyzeResp.badRequest "Missing symptoms or age", [])) := by
  by_cases hs : truthy b.symptoms <;> by_cases ha : truthy b.age
  · unfold analyzeHandler
    simp only [hs, ha]
    cases model with
    | error e => simp [AnalyzeResp.status]
    | ok reply =>
      cases hst : store (buildRow b file reply (parseAgentResponse reply.data)) with
      | error e2 => simp [hst, AnalyzeResp.status]
      | ok d => simp [hst, AnalyzeResp.status]
  all_goals unfold analyzeHandler
  all_goals simp [hs, ha, AnalyzeResp.status]

/-- Witness for C3 at a concrete body with a missing age field: the handler
produces exactly the 400 response with the fixed error body and an empty
trace. -/
theorem c3_witness :
    analyzeHandler
        { symptoms := some "cough", age := none, history := none,
          name := none, userCode := none } none
        (Except.ok "r") (fun _ => Except.ok []) =
      (AnalyzeResp.badRequest "Missing symptoms or age", []) :=
  (c3_validation_iff_falsy
      { symptoms := some "cough", age := none, history := none,
        name := none, userCode := none } none
      (Except.ok "r") (fun _ => Except.ok [])).1.2 (Or.inr (by decide))

/-- A body in which both symptoms and age are present, but symptoms is the
empty string. -/
def c3Body : AnalyzeBody :=
  { symptoms := some "", age := some "30", history := none, name := none, userCode := none }

/-- C3 as frozen is false: in `c3Body` both the symptoms field and the age
field are present in the request body, yet the handler returns the 400
validation error (with no outbound call), because the empty string is falsy. -/
theorem c3_counterexample :
    c3Body.symptoms.isSome = true ∧ c3Body.age.isSome = true ∧
    analyzeHandler c3Body none (Except.ok "reply") (fun _ => Except.ok []) =
      (AnalyzeResp.badRequest "Missing symptoms or age", []) := by
  decide

/-- C4: when the model call succeeds but the store insert reports an error,
the handler responds 500 with the fixed database error message, after exactly
the model call and the insert; the response constructor carries only that
error string, so neither the model reply nor the extracted sections reach the
client. -/
theorem c4_store_error_discards_reply (b : AnalyzeBody) (file : Option String)
    (reply : String) (store : CaseRow → Except String (List Nat)) (e : String)
    (hs : truthy b.symptoms = true) (ha : truthy b.age = true)
    (hst : store (buildRow b file reply (parseAgentResponse reply.data)) =
      Except.error e) :
    analyzeHandler b file (Except.ok reply) store =
      (AnalyzeResp.serverError "Failed to save case to database",
       [Event.modelCall (analyzeMessages b file),
        Event.storeInsert (buildRow b file reply (parseAgentResponse reply.data))]) ∧
    (AnalyzeResp.serverError "Failed to save case to database").status = 500 := by
  unfold analyzeHandler
  simp [hs, ha, hst, AnalyzeResp.status]

/-- Witness for C4: a concrete valid request whose store rejects the
write. -/
theorem c4_witness :
    analyzeHandler
        { symptoms := some "cough", age := some "30", history := none,
          name := none, userCode := none } none
        (Except.ok "fine") (fun _ => Except.error "db down") =
      (AnalyzeResp.serverError "Failed to save case to database",
       [Event.modelCall (analyzeMessages
          { symptoms := some "cough", age := some "30", history := none,
            name := none, userCode := none } none),
        Event.storeInsert (buildRow
          { symptoms := some "cough", age := some "30", history := none,
            name := none, userCode := none } none "fine"
          (parseAgentResponse "fine".data))]) ∧
    (AnalyzeResp.serverError "Failed to save case to database").status = 500 :=
  c4_store_error_discards_reply _ none "fine" _ "db down" (by decide) (by decide) rfl

/-- C5: if the model call throws on a validated request, the handler responds
500 with the fixed inference error and the trace holds the model call only —
no store insert is attempted; and for every request whatsoever the trace is
empty, exactly one model call, or exactly one model call followed by exactly
one store insert, so the store call can only begin after the model call has
completed and each request makes at most one call of each kind. -/
theorem c5_model_error_and_trace_shape (b : AnalyzeBody) (file : Option String)
    (model : Except String String) (store : CaseRow → Except String (List Nat)) :
    (∀ e : String, model = Except.error e → truthy b.symptoms = true →
      truthy b.age = true →
      analyzeHandler b file model store =
        (AnalyzeResp.serverError "Ollama inference failed. Make sure Ollama is running.",
         [Event.modelCall (analyzeMessages b file)])) ∧
    ((analyzeHandler b file model store).2 = [] ∨
      (analyzeHandler b file model store).2 = [Event.modelCall (analyzeMessages b file)] ∨
      ∃ row : CaseRow,
        (analyzeHandler b file model store).2 =
          [Event.modelCall (analyzeMessages b file), Event.storeInsert row]) := by
  constructor
  · rintro e rfl hs ha
    unfold analyzeHandler
    simp [hs, ha]
  · unfold analyzeHandler
    by_cases hs : truthy b.symptoms <;> by_cases ha : truthy b.age <;> simp [hs, ha]
    cases model with
    | error e => simp
    | ok reply =>
      cases hst : store (buildRow b file reply (parseAgentResponse reply.data)) with
      | error e =>
        exact Or.inr (Or.inr
          ⟨buildRow b file reply (parseAgentResponse reply.data), by simp [hst]⟩)
      | ok d =>
        exact Or.inr (Or.inr
          ⟨buildRow b file reply (parseAgentResponse reply.data), by simp [hst]⟩)

/-- Witness for C5: a concrete throwing model call on a valid request yields
the 500 inference error with only the model call in the trace. -/
theorem c5_witness :
    analyzeHandler
        { symptoms := some "cough", age := some "30", history := none,
          name := none, userCode := none } none
        (Except.error "connection refused") (fun _ => Except.ok []) =
      (AnalyzeResp.serverError "Ollama inference failed. Make sure Ollama is running.",
       [Event.modelCall (analyzeMessages
          { symptoms := some "cough", age := some "30", history := none,
            name := none, userCode := none } none)]) :=
  (c5_model_error_and_trace_shape _ none (Except.error "connection refused")
      (fun _ => Except.ok [])).1
    "connection refused" rfl (by decide) (by decide)

/-- C6: on every request that passes validation with a successful model call,
the row handed to the store insert maps each of the six section columns to
the extracted text when the extraction is non-empty, and to null (`none`) —
not the empty string — when the extractor produced the empty string. -/
theorem c6_sections_stored_null_iff_empty (b : AnalyzeBody) (file : Option String)
    (reply : String) (store : CaseRow → Except String (List Nat))
    (hs : truthy b.symptoms = true) (ha : truthy b.age = true) :
    ∃ row : CaseRow,
      Event.storeInsert row ∈ (analyzeHandler b file (Except.ok reply) store).2 ∧
      row.symptom_analyzer = (if (parseAgentResponse reply.data).symptom = []
        then none else some (parseAgentResponse reply.data).symptom) ∧
      row.risk_predictor = (if (parseAgentResponse reply.data).risk = []
        then none else some (parseAgentResponse reply.data).risk) ∧
      row.fraud_detector = (if (parseAgentResponse reply.data).fraud = []
        then none else some (parseAgentResponse reply.data).fraud) ∧
      row.security_guardian = (if (parseAgentResponse reply.data).security = []
        then none else some (parseAgentResponse reply.data).security) ∧
      row.coordinator_insights = (if (parseAgentResponse reply.data).coordinator = []
        then none else some (parseAgentResponse reply.data).coordinator) ∧
      row.recommendations = (if (parseAgentResponse reply.data).recommendations = []
        then none else some (parseAgentResponse reply.data).recommendations) := by
  refine ⟨buildRow b file reply (parseAgentResponse reply.data), ?_, ?_, ?_, ?_, ?_, ?_, ?_⟩
  · unfold analyzeHandler
    simp only [hs, ha, Bool.not_true, Bool.or_self, if_false]
    cases hst : store (buildRow b file reply (parseAgentResponse reply.data)) <;>
      simp [hst]
  all_goals simp [buildRow, orNull_eq_ite]

/-- Witness for C6: a concrete reply in which only the security section is
present, on a concrete valid request. -/
theorem c6_witness :
    ∃ row : CaseRow,
      Event.storeInsert row ∈ (analyzeHandler
        { symptoms := some "cough", age := some "30", history := none,
          name := none, userCode := none } none
        (Except.ok "🔐 SECURITY_GUARDIAN: safe") (fun _ => Except.ok [7])).2 ∧
      row.symptom_analyzer = (if (parseAgentResponse "🔐 SECURITY_GUARDIAN: safe".data).symptom = []
        then none else some (parseAgentResponse "🔐 SECURITY_GUARDIAN: safe".data).symptom) ∧
      row.risk_predictor = (if (parseAgentResponse "🔐 SECURITY_GUARDIAN: safe".data).risk = []
        then none else some (parseAgentResponse "🔐 SECURITY_GUARDIAN: safe".data).risk) ∧
      row.fraud_detector = (if (parseAgentResponse "🔐 SECURITY_GUARDIAN: safe".data).fraud = []
        then none else some (parseAgentResponse "🔐 SECURITY_GUARDIAN: safe".data).fraud) ∧
      row.security_guardian = (if (parseAgentResponse "🔐 SECURITY_GUARDIAN: safe".data).security = []
        then none else some (parseAgentResponse "🔐 SECURITY_GUARDIAN: safe".data).security) ∧
      row.coordinator_insights = (if (parseAgentResponse "🔐 SECURITY_GUARDIAN: safe".data).coordinator = []
        then none else some (parseAgentResponse "🔐 SECURITY_GUARDIAN: safe".data).coordinator) ∧
      row.recommendations = (if (parseAgentResponse "🔐 SECURITY_GUARDIAN: safe".data).recommendations = []
        then none else some (parseAgentResponse "🔐 SECURITY_GUARDIAN: safe".data).recommendations) :=
  c6_sections_stored_null_iff_empty _ none "🔐 SECURITY_GUARDIAN: safe"
    (fun _ => Except.ok [7]) (by decide) (by decide)

/-- C7 (amended): for every request that passes validation and reaches
persistence, the age value written is parseInt(age, 10) of the supplied age
string — an integer exactly when the string, after optional whitespace and an
optional sign, begins with a decimal digit, and NaN (modelled `none`)
otherwise; nothing forces it to be an integer for every string the client may
supply. -/
theorem c7_age_is_parseInt (b : AnalyzeBody) (file : Option String)
    (reply : String) (store : CaseRow → Except String (List Nat)) (a : String)
    (hb : b.age = some a) (hs : truthy b.symptoms = true) (ha : truthy b.age = true)
    (row : CaseRow)
    (hrow : Event.storeInsert row ∈ (analyzeHandler b file (Except.ok reply) store).2) :
    row.age = jsParseInt a := by
  unfold analyzeHandler at hrow
  simp only [hs, ha, Bool.not_true, Bool.or_self, if_false] at hrow
  have hrow2 : row = buildRow b file reply (parseAgentResponse reply.data) := by
    cases hst : store (buildRow b file reply (parseAgentResponse reply.data)) <;>
      simp [hst] at hrow <;> exact hrow
  rw [hrow2]
  simp [buildRow, hb]

/-- Witness for C7: on a concrete valid request with age supplied as 30, the
inserted row carries parseInt value 30. -/
theorem c7_witness :
    (buildRow
      { symptoms := some "cough", age := some "30", history := none,
        name := none, userCode := none } none "fine"
      (parseAgentResponse "fine".data)).age = jsParseInt "30" ∧
    jsParseInt "30" = some 30 :=
  ⟨c7_age_is_parseInt
      { symptoms := some "cough", age := some "30", history := none,
        name := none, userCode := none } none "fine" (fun _ => Except.ok []) "30"
      rfl (by decide) (by decide) _ (by decide),
   by decide⟩

/-- A body whose age field is present and truthy but not numeric. -/
def c7Body : AnalyzeBody :=
  { symptoms := some "cough", age := some "abc", history := none,
    name := none, userCode := none }

/-- C7 as frozen is false: with age supplied as the string abc — present and
truthy, so validation passes and persistence is reached — the age value
written to the row is parseInt(abc, 10) = NaN (modelled `none`), not an
integer. -/
theorem c7_counterexample :
    jsParseInt "abc" = none ∧
    Event.storeInsert (buildRow c7Body none "fine" (parseAgentResponse "fine".data)) ∈
      (analyzeHandler c7Body none (Except.ok "fine") (fun _ => Except.ok [])).2 ∧
    (buildRow c7Body none "fine" (parseAgentResponse "fine".data)).age = none := by
  decide

/-- C9: the health endpoint performs exactly one store read and never a model
call, answers 200 with the ok body when the read succeeds, and 500 with the
error body carrying the thrown message when the read fails. -/
theorem c9_health_read_ok_or_error (m : String) (read : Except String Unit) :
    healthHandler (Except.ok ()) = (HealthResp.ok, [Event.storeSelect]) ∧
    healthHandler (Except.error m) = (HealthResp.err m, [Event.storeSelect]) ∧
    (healthHandler read).2 = [Event.storeSelect] ∧
    HealthResp.status HealthResp.ok = 200 ∧
    HealthResp.status (HealthResp.err m) = 500 := by
  refine ⟨rfl, rfl, ?_, rfl, rfl⟩
  cases read <;> rfl

/-- C10: the chat handler performs no input validation: for every body —
bodies with absent caseContext or question included — it issues exactly one
model call whose two user turns forward the two fields unchanged, and answers
200 with the reply on model success or 500 with the fixed chat error on model
failure; a 400 status is never produced. -/
theorem c10_chat_no_validation (caseContext question : Option String)
    (model : Except String String) :
    chatHandler caseContext question model =
      ((match model with
        | Except.ok reply => ChatResp.ok reply
        | Except.error _ => ChatResp.err "Chat failed"),
       [Event.modelCall [⟨"system", some chatSystemPrompt⟩,
          ⟨"user", caseContext⟩, ⟨"user", question⟩]]) ∧
    ((chatHandler caseContext question model).1.status = 200 ∨
      (chatHandler caseContext question model).1.status = 500) ∧
    ((chatHandler caseContext question model).1.status == 400) = false := by
  cases model <;> simp [chatHandler, chatMessages, ChatResp.status]

end MediMind
